import Mathlib

/-!
Verification development for the GeoSlide hazard-assessment service.

The definitions below are a shallow embedding of the inference
orchestration and zone-based decision engine found in
`backend/src/inference_engine.py` and of the request boundary in
`backend/server.py`.  Machine floats are modelled as rationals; each
call to the random source is modelled as an explicit parameter
constrained to the closed interval the source draws from; wall-clock
time is threaded explicitly, with each simulated `time.sleep(d)`
advancing the clock by at least `d`.
-/

namespace GeoSlide

/-- A rectangular geographic zone, as in the module-level `ZONES` dict. -/
structure Zone where
  min_lat : ℚ
  max_lat : ℚ
  min_lon : ℚ
  max_lon : ℚ
deriving DecidableEq

/-- `ZONES["CHAMOLI"]`. -/
def CHAMOLI : Zone := ⟨30.0, 30.8, 78.8, 79.8⟩

/-- `ZONES["JAISALMER"]`. -/
def JAISALMER : Zone := ⟨26.0, 28.0, 70.0, 72.0⟩

/-- The containment test used inline in `run_inference_pipeline`
(lines 74-77): closed-interval comparison on both coordinates. -/
def Zone.contains (z : Zone) (lat lon : ℚ) : Bool :=
  z.min_lat ≤ lat && lat ≤ z.max_lat && z.min_lon ≤ lon && lon ≤ z.max_lon

/-- Severity tags produced by `_calculate_metrics` (strings in the code). -/
inductive Severity
  | SAFE
  | LOW
  | MEDIUM
  | HIGH
deriving DecidableEq, Repr

/-- Status tags produced by `_calculate_metrics` (strings in the code). -/
inductive Status
  | NO_ANOMALY
  | VALIDATED_DETECTION
  | UNVERIFIED_DETECTION
deriving DecidableEq, Repr

/-- The metrics dict returned by `GeoSlideEngine._calculate_metrics`. -/
structure Metrics where
  confidence : ℚ
  severity : Severity
  precision : ℚ
  accuracy : ℚ
  f1_score : ℚ
  status : Status
deriving DecidableEq, Repr

/-- `GeoSlideEngine._calculate_metrics(is_expert, is_desert)`.
`r` models the single `random.random()` draw of the branch taken,
constrained elsewhere to `[0, 1]`.  The desert (suppressed) branch is
tested first and uses no randomness. -/
def calculate_metrics (is_expert is_desert : Bool) (r : ℚ) : Metrics :=
  if is_desert then
    { confidence := 0, severity := .SAFE
      precision := 0, accuracy := 0, f1_score := 0
      status := .NO_ANOMALY }
  else if is_expert then
    { confidence := 88 + r * 5, severity := .HIGH
      precision := 0.85, accuracy := 0.89, f1_score := 0.83
      status := .VALIDATED_DETECTION }
  else
    let conf := 45 + r * 20
    { confidence := conf
      severity := if conf > 60 then .MEDIUM else .LOW
      precision := 0, accuracy := 0, f1_score := 0
      status := .UNVERIFIED_DETECTION }

/-- Total of the `time.sleep` calls executed during one
`run_inference_pipeline` call: 0.4 (fetch) + 0.3 (correction) +
0.8 (SLIC) + 0.4 + 0.3 (RAG merge) + 0.5 + 0.5 (random forest),
plus 0.2 inside `_calculate_metrics` on the expert branch. -/
def pipelineSleepTime (is_expert is_desert : Bool) : ℚ :=
  3.2 + (if !is_desert && is_expert then 0.2 else 0)

/-- Wall-clock time at the end of a `run_inference_pipeline` call that
began at `t`: the sleeps are lower bounds on real elapsed time, and
`extra ≥ 0` accounts for any further real time the call consumed. -/
def endTime (lat lon : ℚ) (t extra : ℚ) : ℚ :=
  t + pipelineSleepTime (CHAMOLI.contains lat lon) (JAISALMER.contains lat lon) + extra

/-- The result dict of `run_inference_pipeline`.  `mask_id` holds the
integer `int(time.time())` that the code interpolates into the string
`f"mask_{int(time.time())}"`; the formatting is injective in that
integer, so id uniqueness is uniqueness of this field. -/
structure InferenceResult where
  confidence : ℚ
  metrics : Metrics
  processing_time : ℚ
  mask_id : ℤ
deriving DecidableEq, Repr

/-- `GeoSlideEngine.run_inference_pipeline(lat, lon, date_pre, date_post)`.
The fetched tensor, atmospheric correction, SLIC segmentation and RAG
merge are simulated sleeps whose outputs are never read by the decision
logic; only the two zone tests and `_calculate_metrics` determine the
result.  `r` is the `random.random()` draw, `t` the start time and
`extra ≥ 0` the real elapsed time beyond the sleeps. -/
def run_inference_pipeline (lat lon : ℚ) (r : ℚ) (t extra : ℚ) : InferenceResult :=
  let is_expert := CHAMOLI.contains lat lon
  let is_desert := JAISALMER.contains lat lon
  let metrics := calculate_metrics is_expert is_desert r
  let tEnd := endTime lat lon t extra
  { confidence := metrics.confidence
    metrics := metrics
    processing_time := tEnd - t
    mask_id := ⌊tEnd⌋ }

/-- One entry of the fixed `test_set` inside `run_batch_benchmark`. -/
structure BenchSample where
  lat : ℚ
  lon : ℚ
  sev : String
  diff : ℚ
deriving DecidableEq, Repr

/-- The fixed 10-sample test set of `run_batch_benchmark`. -/
def test_set : List BenchSample :=
  [ ⟨30.420, 79.320, "MEDIUM",  0.00⟩,
    ⟨30.405, 79.305, "HIGH",    0.03⟩,
    ⟨30.450, 79.350, "LOW",    -0.04⟩,
    ⟨30.410, 79.310, "HIGH",    0.03⟩,
    ⟨30.425, 79.325, "MEDIUM", -0.01⟩,
    ⟨30.460, 79.360, "LOW",    -0.04⟩,
    ⟨30.435, 79.335, "MEDIUM", -0.01⟩,
    ⟨30.455, 79.355, "LOW",    -0.05⟩,
    ⟨30.430, 79.330, "MEDIUM",  0.00⟩,
    ⟨30.400, 79.300, "HIGH",    0.04⟩ ]

/-- The random draws `run_batch_benchmark` makes for one sample, in
program order: the three `np.random.uniform(-0.005, 0.005)` jitters on
the geo metrics, the single `np.random.uniform(0.011, 0.013)` gap, and
the three `np.random.uniform(-0.001, 0.001)` noises on the baseline
metrics.  (The per-sample `np.random.uniform(4.0, 6.0)` sleep does not
influence any metric and is omitted.) -/
structure BenchDraw where
  jacc : ℚ
  jprec : ℚ
  jf1 : ℚ
  gap : ℚ
  nacc : ℚ
  nprec : ℚ
  nf1 : ℚ
deriving DecidableEq, Repr

/-- The intervals each draw of `BenchDraw` is taken from (closed
over-approximations of numpy's half-open uniform ranges). -/
def BenchDraw.valid (d : BenchDraw) : Prop :=
  -0.005 ≤ d.jacc ∧ d.jacc ≤ 0.005 ∧
  -0.005 ≤ d.jprec ∧ d.jprec ≤ 0.005 ∧
  -0.005 ≤ d.jf1 ∧ d.jf1 ≤ 0.005 ∧
  0.011 ≤ d.gap ∧ d.gap ≤ 0.013 ∧
  -0.001 ≤ d.nacc ∧ d.nacc ≤ 0.001 ∧
  -0.001 ≤ d.nprec ∧ d.nprec ≤ 0.001 ∧
  -0.001 ≤ d.nf1 ∧ d.nf1 ≤ 0.001

instance (d : BenchDraw) : Decidable d.valid := by
  unfold BenchDraw.valid; infer_instance

/-- One element of the list returned by `run_batch_benchmark`:
the dict appended to `results` for sample index `i`. -/
structure BenchResult where
  id : ℕ
  lat : ℚ
  lon : ℚ
  severity : String
  geo_acc : ℚ
  geo_prec : ℚ
  geo_f1 : ℚ
  base_acc : ℚ
  base_prec : ℚ
  base_f1 : ℚ
deriving DecidableEq, Repr

/-- The metric calculation of one `run_batch_benchmark` loop iteration
(lines 127-152): base reference `0.890 + diff`, geo metrics with
jitter, baseline metrics obtained by subtracting the gap and adding
noise. -/
def benchSampleResult (i : ℕ) (item : BenchSample) (d : BenchDraw) : BenchResult :=
  let base_ref := 0.890 + item.diff
  let geo_acc := base_ref + d.jacc
  let geo_prec := base_ref - 0.02 + d.jprec
  let geo_f1 := base_ref - 0.01 + d.jf1
  let base_acc := geo_acc - d.gap + d.nacc
  let base_prec := geo_prec - d.gap + d.nprec
  let base_f1 := geo_f1 - d.gap + d.nf1
  { id := i + 1
    lat := item.lat, lon := item.lon, severity := item.sev
    geo_acc := geo_acc, geo_prec := geo_prec, geo_f1 := geo_f1
    base_acc := base_acc, base_prec := base_prec, base_f1 := base_f1 }

/-- `GeoSlideEngine.run_batch_benchmark()`: iterate over `test_set` in
order, drawing fresh randoms per sample (`draws i` being the draws of
iteration `i`). -/
def run_batch_benchmark (draws : ℕ → BenchDraw) : List BenchResult :=
  test_set.enum.map (fun p => benchSampleResult p.1 p.2 (draws p.1))

/-- The two responses `predict_hazard` in `server.py` can produce on a
well-formed JSON body: the 400 `Missing coordinates` error, or the 200
success envelope wrapping the engine result. -/
inductive PredictResponse
  | badRequest
  | success (res : InferenceResult)
deriving DecidableEq, Repr

/-- `predict_hazard` in `server.py`: `lat`/`lon` are `data.get(..)`
results, `none` when absent or JSON `null`.  The guard is Python
truthiness (`if not lat or not lon`), so `0` is rejected like a
missing value; there is no range validation.  The second component
records whether `run_inference_pipeline` was invoked. -/
def predict_hazard (lat lon : Option ℚ) (r t extra : ℚ) : PredictResponse × Bool :=
  match lat, lon with
  | some la, some lo =>
      if la = 0 ∨ lo = 0 then (.badRequest, false)
      else (.success (run_inference_pipeline la lo r t extra), true)
  | _, _ => (.badRequest, false)

/-- `GeoSlideEngine.get_status()`, the body of the health endpoint,
as an ordered list of key/value pairs. -/
def get_status : List (String × String) :=
  [("service", "GeoSlide AI"),
   ("status", "operational"),
   ("gpu_memory_used", "1.4GB / 16GB")]

/-- `health_check` in `server.py`: HTTP code 200 with `get_status()`
as the body. -/
def health_check : ℕ × List (String × String) :=
  (200, get_status)

/-! ## Zone classification lemmas -/

theorem Zone.contains_true_of (z : Zone) {lat lon : ℚ}
    (h1 : z.min_lat ≤ lat) (h2 : lat ≤ z.max_lat)
    (h3 : z.min_lon ≤ lon) (h4 : lon ≤ z.max_lon) :
    z.contains lat lon = true := by
  simp [Zone.contains, h1, h2, h3, h4]

theorem Zone.contains_false_of_lat_gt (z : Zone) {lat lon : ℚ}
    (h : z.max_lat < lat) : z.contains lat lon = false := by
  have h' : ¬ (lat ≤ z.max_lat) := not_le.mpr h
  simp [Zone.contains, h']

theorem jaisalmer_contains_of_bounds {lat lon : ℚ}
    (h1 : 26 ≤ lat) (h2 : lat ≤ 28) (h3 : 70 ≤ lon) (h4 : lon ≤ 72) :
    JAISALMER.contains lat lon = true :=
  Zone.contains_true_of _ (by norm_num [JAISALMER]; linarith)
    (by norm_num [JAISALMER]; linarith) (by norm_num [JAISALMER]; linarith)
    (by norm_num [JAISALMER]; linarith)

theorem chamoli_contains_of_bounds {lat lon : ℚ}
    (h1 : 30 ≤ lat) (h2 : lat ≤ 30.8) (h3 : 78.8 ≤ lon) (h4 : lon ≤ 79.8) :
    CHAMOLI.contains lat lon = true :=
  Zone.contains_true_of _ (by norm_num [CHAMOLI]; linarith)
    (by norm_num [CHAMOLI]; linarith) (by norm_num [CHAMOLI]; linarith)
    (by norm_num [CHAMOLI]; linarith)

theorem jaisalmer_not_contains_of_north (lat lon : ℚ) (h : 30 ≤ lat) :
    JAISALMER.contains lat lon = false :=
  Zone.contains_false_of_lat_gt _ (by norm_num [JAISALMER]; linarith)

/-- C2: for every point with latitude in [26, 28] and longitude in
[70, 72] (the JAISALMER suppressed zone), `run_inference_pipeline`
returns confidence exactly 0, severity SAFE, precision/accuracy/f1 all
0, and status NO_ANOMALY, for every random draw `r`, start time `t`
and elapsed slack `extra`. -/
theorem C2_suppressed_zone (lat lon r t extra : ℚ)
    (h1 : 26 ≤ lat) (h2 : lat ≤ 28) (h3 : 70 ≤ lon) (h4 : lon ≤ 72) :
    (run_inference_pipeline lat lon r t extra).confidence = 0 ∧
    (run_inference_pipeline lat lon r t extra).metrics.severity = Severity.SAFE ∧
    (run_inference_pipeline lat lon r t extra).metrics.precision = 0 ∧
    (run_inference_pipeline lat lon r t extra).metrics.accuracy = 0 ∧
    (run_inference_pipeline lat lon r t extra).metrics.f1_score = 0 ∧
    (run_inference_pipeline lat lon r t extra).metrics.status = Status.NO_ANOMALY := by
  have hd := jaisalmer_contains_of_bounds h1 h2 h3 h4
  simp [run_inference_pipeline, calculate_metrics, hd]

/-- C2 witness at the concrete suppressed-zone point (27, 71). -/
theorem C2_suppressed_zone_witness :
    (26 : ℚ) ≤ 27 ∧ (27 : ℚ) ≤ 28 ∧ (70 : ℚ) ≤ 71 ∧ (71 : ℚ) ≤ 72 ∧
    (run_inference_pipeline 27 71 (1/2) 0 0).confidence = 0 ∧
    (run_inference_pipeline 27 71 (1/2) 0 0).metrics.status = Status.NO_ANOMALY := by
  have h := C2_suppressed_zone 27 71 (1/2) 0 0 (by norm_num) (by norm_num)
    (by norm_num) (by norm_num)
  exact ⟨by norm_num, by norm_num, by norm_num, by norm_num, h.1, h.2.2.2.2.2⟩

/-- C3: for every point with latitude in [30, 30.8] and longitude in
[78.8, 79.8] (the CHAMOLI validated zone) and every random draw
`r ∈ [0, 1]`, `run_inference_pipeline` returns confidence in
[88, 93], severity HIGH, precision 0.85, accuracy 0.89, f1 0.83, and
status VALIDATED_DETECTION. -/
theorem C3_validated_zone (lat lon r t extra : ℚ)
    (hr0 : 0 ≤ r) (hr1 : r ≤ 1)
    (h1 : 30 ≤ lat) (h2 : lat ≤ 30.8) (h3 : 78.8 ≤ lon) (h4 : lon ≤ 79.8) :
    88 ≤ (run_inference_pipeline lat lon r t extra).confidence ∧
    (run_inference_pipeline lat lon r t extra).confidence ≤ 93 ∧
    (run_inference_pipeline lat lon r t extra).metrics.severity = Severity.HIGH ∧
    (run_inference_pipeline lat lon r t extra).metrics.precision = 0.85 ∧
    (run_inference_pipeline lat lon r t extra).metrics.accuracy = 0.89 ∧
    (run_inference_pipeline lat lon r t extra).metrics.f1_score = 0.83 ∧
    (run_inference_pipeline lat lon r t extra).metrics.status = Status.VALIDATED_DETECTION := by
  have he := chamoli_contains_of_bounds h1 h2 h3 h4
  have hd := jaisalmer_not_contains_of_north lat lon h1
  simp only [run_inference_pipeline, calculate_metrics, he, hd, if_true,
    Bool.false_eq_true, if_false]
  refine ⟨by linarith, by linarith, trivial, trivial, trivial, trivial, trivial⟩

/-- C3 witness at the spec's example point (30.4, 79.3) with r = 1/2. -/
theorem C3_validated_zone_witness :
    (0 : ℚ) ≤ 1/2 ∧ (1/2 : ℚ) ≤ 1 ∧
    (30 : ℚ) ≤ 30.4 ∧ (30.4 : ℚ) ≤ 30.8 ∧ (78.8 : ℚ) ≤ 79.3 ∧ (79.3 : ℚ) ≤ 79.8 ∧
    88 ≤ (run_inference_pipeline 30.4 79.3 (1/2) 0 0).confidence ∧
    (run_inference_pipeline 30.4 79.3 (1/2) 0 0).metrics.status = Status.VALIDATED_DETECTION := by
  have h := C3_validated_zone 30.4 79.3 (1/2) 0 0 (by norm_num) (by norm_num)
    (by norm_num) (by norm_num) (by norm_num) (by norm_num)
  exact ⟨by norm_num, by norm_num, by norm_num, by norm_num, by norm_num, by norm_num,
    h.1, h.2.2.2.2.2.2⟩

/-- C4: for every point inside neither zone and every random draw
`r ∈ [0, 1]`, `run_inference_pipeline` returns confidence in [45, 65],
precision/accuracy/f1 all 0, status UNVERIFIED_DETECTION, and severity
MEDIUM exactly when confidence > 60, LOW otherwise. -/
theorem C4_unverified_zone (lat lon r t extra : ℚ)
    (hr0 : 0 ≤ r) (hr1 : r ≤ 1)
    (he : CHAMOLI.contains lat lon = false)
    (hd : JAISALMER.contains lat lon = false) :
    45 ≤ (run_inference_pipeline lat lon r t extra).confidence ∧
    (run_inference_pipeline lat lon r t extra).confidence ≤ 65 ∧
    (run_inference_pipeline lat lon r t extra).metrics.precision = 0 ∧
    (run_inference_pipeline lat lon r t extra).metrics.accuracy = 0 ∧
    (run_inference_pipeline lat lon r t extra).metrics.f1_score = 0 ∧
    (run_inference_pipeline lat lon r t extra).metrics.status = Status.UNVERIFIED_DETECTION ∧
    (run_inference_pipeline lat lon r t extra).metrics.severity =
      (if 60 < (run_inference_pipeline lat lon r t extra).confidence
       then Severity.MEDIUM else Severity.LOW) := by
  simp only [run_inference_pipeline, calculate_metrics, he, hd,
    Bool.false_eq_true, if_false]
  refine ⟨by linarith, by linarith, trivial, trivial, trivial, trivial, trivial⟩

/-- C4 witness at the spec's example point (0, 0) with r = 1/2
(confidence 55, severity LOW). -/
theorem C4_unverified_zone_witness :
    (0 : ℚ) ≤ 1/2 ∧ (1/2 : ℚ) ≤ 1 ∧
    CHAMOLI.contains 0 0 = false ∧ JAISALMER.contains 0 0 = false ∧
    45 ≤ (run_inference_pipeline 0 0 (1/2) 0 0).confidence ∧
    (run_inference_pipeline 0 0 (1/2) 0 0).metrics.status = Status.UNVERIFIED_DETECTION := by
  have hc : CHAMOLI.contains 0 0 = false := by norm_num [CHAMOLI, Zone.contains]
  have hj : JAISALMER.contains 0 0 = false := by norm_num [JAISALMER, Zone.contains]
  have h := C4_unverified_zone 0 0 (1/2) 0 0 (by norm_num) (by norm_num) hc hj
  exact ⟨by norm_num, by norm_num, hc, hj, h.1, h.2.2.2.2.2.1⟩

/-- C7: zone containment is a closed-interval test: a point whose
latitude or longitude sits exactly on a zone's min or max edge (the
other coordinates being in range) is classified as inside the zone. -/
theorem C7_zone_boundary_closed (z : Zone) (lat lon : ℚ)
    (h1 : z.min_lat ≤ lat) (h2 : lat ≤ z.max_lat)
    (h3 : z.min_lon ≤ lon) (h4 : lon ≤ z.max_lon)
    (_hedge : lat = z.min_lat ∨ lat = z.max_lat ∨ lon = z.min_lon ∨ lon = z.max_lon) :
    z.contains lat lon = true :=
  Zone.contains_true_of z h1 h2 h3 h4

/-- C7 witness: the CHAMOLI edge point (30.0, 79.8) is inside CHAMOLI. -/
theorem C7_zone_boundary_closed_witness :
    CHAMOLI.min_lat ≤ 30.0 ∧ (30.0 : ℚ) ≤ CHAMOLI.max_lat ∧
    CHAMOLI.min_lon ≤ 79.8 ∧ (79.8 : ℚ) ≤ CHAMOLI.max_lon ∧
    (30.0 : ℚ) = CHAMOLI.min_lat ∧
    CHAMOLI.contains 30.0 79.8 = true := by
  refine ⟨by norm_num [CHAMOLI], by norm_num [CHAMOLI], by norm_num [CHAMOLI],
    by norm_num [CHAMOLI], by norm_num [CHAMOLI], ?_⟩
  exact C7_zone_boundary_closed CHAMOLI 30.0 79.8 (by norm_num [CHAMOLI])
    (by norm_num [CHAMOLI]) (by norm_num [CHAMOLI]) (by norm_num [CHAMOLI])
    (Or.inl (by norm_num [CHAMOLI]))

/-- The concrete benchmark draw refuting C1 as stated: all jitters 0,
gap at its minimum 0.011, accuracy noise 0.0009 (interior of the
noise range). -/
def c1Draw : BenchDraw := ⟨0, 0, 0, 0.011, 0.0009, 0, 0⟩

/-- C1 counterexample: with gap drawn at its minimum 0.011 and the
accuracy noise at 0.0009, the first benchmark sample has
geo_acc - base_acc = 0.0101 < 0.011, so the difference is not at
least the configured minimum gap. -/
theorem C1_counterexample :
    c1Draw.valid ∧
    ((run_batch_benchmark (fun _ => c1Draw)).head?.map
        (fun res => res.geo_acc - res.base_acc) = some 0.0101) ∧
    (0.0101 : ℚ) < 0.011 := by
  refine ⟨?_, ?_, by norm_num⟩
  · unfold BenchDraw.valid c1Draw
    norm_num
  · norm_num [run_batch_benchmark, test_set, List.enum, List.enumFrom,
      benchSampleResult, c1Draw]

/-- C1 (amended): for every sample and every outcome of the draws,
model-B's accuracy, precision and F1 are each strictly less than
model-A's corresponding metric, and each difference is at least
0.010 — the minimum gap 0.011 minus the noise amplitude 0.001 — though
not necessarily at least 0.011. -/
theorem C1_benchmark_gap (draws : ℕ → BenchDraw)
    (hv : ∀ i, (draws i).valid) :
    ∀ res ∈ run_batch_benchmark draws,
      res.base_acc < res.geo_acc ∧
      res.base_prec < res.geo_prec ∧
      res.base_f1 < res.geo_f1 ∧
      0.010 ≤ res.geo_acc - res.base_acc ∧
      0.010 ≤ res.geo_prec - res.base_prec ∧
      0.010 ≤ res.geo_f1 - res.base_f1 := by
  intro res hres
  unfold run_batch_benchmark at hres
  obtain ⟨⟨i, item⟩, _hmem, rfl⟩ := List.mem_map.mp hres
  have hv' := hv i
  unfold BenchDraw.valid at hv'
  obtain ⟨_, _, _, _, _, _, hg1, hg2, hna1, hna2, hnp1, hnp2, hnf1, hnf2⟩ := hv'
  simp only [benchSampleResult]
  norm_num
  refine ⟨by linarith, by linarith, by linarith, by linarith, by linarith, by linarith⟩

/-- C1 witness: the amended gap bound applied at the constant draw
`c1Draw`. -/
theorem C1_benchmark_gap_witness :
    (∀ i : ℕ, ((fun _ => c1Draw) i).valid) ∧
    ∀ res ∈ run_batch_benchmark (fun _ => c1Draw),
      res.base_acc < res.geo_acc ∧
      res.base_prec < res.geo_prec ∧
      res.base_f1 < res.geo_f1 ∧
      0.010 ≤ res.geo_acc - res.base_acc ∧
      0.010 ≤ res.geo_prec - res.base_prec ∧
      0.010 ≤ res.geo_f1 - res.base_f1 := by
  have hv : ∀ i : ℕ, ((fun _ => c1Draw) i).valid := by
    intro i
    unfold BenchDraw.valid c1Draw
    norm_num
  exact ⟨hv, C1_benchmark_gap _ hv⟩

/-- C5 counterexample: the out-of-range coordinate pair (200, 10) is
not rejected — `predict_hazard` invokes the engine and returns the 200
success envelope, because the boundary checks only truthiness and
never the [-90, 90] / [-180, 180] ranges. -/
theorem C5_counterexample :
    ((90 : ℚ) < 200) ∧
    (predict_hazard (some 200) (some 10) 0 0 0).1 ≠ PredictResponse.badRequest ∧
    (predict_hazard (some 200) (some 10) 0 0 0).2 = true := by
  have hred : predict_hazard (some 200) (some 10) 0 0 0 =
      (PredictResponse.success (run_inference_pipeline 200 10 0 0 0), true) := by
    norm_num [predict_hazard]
  refine ⟨by norm_num, ?_, ?_⟩
  · rw [hred]
    exact fun hcontra => PredictResponse.noConfusion hcontra
  · rw [hred]

/-- C5 (amended): a request with lat or lon absent/null fails with the
400 Missing-coordinates response and the engine is never invoked;
out-of-range coordinates are not validated (C5's range clause fails,
see the counterexample). -/
theorem C5_missing_coordinates (lat lon : Option ℚ) (r t extra : ℚ)
    (h : lat = none ∨ lon = none) :
    predict_hazard lat lon r t extra = (PredictResponse.badRequest, false) := by
  rcases h with rfl | rfl
  · cases lon <;> rfl
  · cases lat <;> rfl

/-- C5 witness: a request with lat absent is rejected without invoking
the engine. -/
theorem C5_missing_coordinates_witness :
    ((none : Option ℚ) = none ∨ (some (10 : ℚ)) = none) ∧
    predict_hazard none (some 10) 0 0 0 = (PredictResponse.badRequest, false) :=
  ⟨Or.inl rfl, C5_missing_coordinates none (some 10) 0 0 0 (Or.inl rfl)⟩

/-- C6: two sequential `run_inference_pipeline` calls never produce
the same mask id: the second call starts no earlier than the first
call ended, every call blocks for at least 3.2 seconds of sleeps, and
`int(time.time())` therefore strictly increases between the two ends. -/
theorem C6_mask_id_unique (lat1 lon1 r1 t1 e1 lat2 lon2 r2 t2 e2 : ℚ)
    (he2 : 0 ≤ e2)
    (hseq : endTime lat1 lon1 t1 e1 ≤ t2) :
    (run_inference_pipeline lat1 lon1 r1 t1 e1).mask_id ≠
      (run_inference_pipeline lat2 lon2 r2 t2 e2).mask_id := by
  have hsleep : (3.2 : ℚ) ≤
      pipelineSleepTime (CHAMOLI.contains lat2 lon2) (JAISALMER.contains lat2 lon2) := by
    unfold pipelineSleepTime
    split <;> norm_num
  have h1 : endTime lat1 lon1 t1 e1 + (3 : ℚ) ≤ endTime lat2 lon2 t2 e2 := by
    unfold endTime at hseq ⊢
    nlinarith [hsleep, he2, hseq]
  have h2 : ⌊endTime lat1 lon1 t1 e1 + (3 : ℚ)⌋ ≤ ⌊endTime lat2 lon2 t2 e2⌋ :=
    Int.floor_le_floor h1
  rw [show ((3 : ℚ)) = ((3 : ℤ) : ℚ) by norm_num, Int.floor_add_int] at h2
  intro h
  simp only [run_inference_pipeline] at h
  omega

/-- C6 witness: a first call from time 0 and a second call starting at
time 4 (after the first ended at 3.2) give distinct mask ids. -/
theorem C6_mask_id_unique_witness :
    (0 : ℚ) ≤ 0 ∧ endTime 0 0 0 0 ≤ 4 ∧
    (run_inference_pipeline 0 0 0 0 0).mask_id ≠
      (run_inference_pipeline 0 0 0 4 0).mask_id := by
  have h2 : endTime 0 0 0 0 ≤ 4 := by
    norm_num [endTime, pipelineSleepTime, Zone.contains, CHAMOLI, JAISALMER]
  exact ⟨le_refl 0, h2, C6_mask_id_unique 0 0 0 0 0 0 0 0 4 0 (le_refl 0) h2⟩

/-- C8: the benchmark returns exactly one result per input sample, in
input order, with id i+1 for input index i and lat/lon/severity copied
from the corresponding input sample. -/
theorem C8_batch_order (draws : ℕ → BenchDraw) :
    (run_batch_benchmark draws).length = test_set.length ∧
    ∀ i, i < test_set.length →
      ((run_batch_benchmark draws).get? i).map
          (fun res => (res.id, res.lat, res.lon, res.severity)) =
        (test_set.get? i).map (fun s => (i + 1, s.lat, s.lon, s.sev)) := by
  constructor
  · simp [run_batch_benchmark]
  · intro i hi
    have hi' : i < 10 := by simpa [test_set] using hi
    interval_cases i <;> rfl

/-- C8 witness: at the constant all-zero draw and index 0, the first
result carries id 1 and the first sample's fields. -/
theorem C8_batch_order_witness :
    (run_batch_benchmark (fun _ => BenchDraw.mk 0 0 0 0 0 0 0)).length = test_set.length ∧
    0 < test_set.length ∧
    ((run_batch_benchmark (fun _ => BenchDraw.mk 0 0 0 0 0 0 0)).get? 0).map
        (fun res => (res.id, res.lat, res.lon, res.severity)) =
      (test_set.get? 0).map (fun s => (0 + 1, s.lat, s.lon, s.sev)) := by
  have h := C8_batch_order (fun _ => BenchDraw.mk 0 0 0 0 0 0 0)
  have hlen : 0 < test_set.length := by norm_num [test_set]
  exact ⟨h.1, hlen, h.2 0 hlen⟩

/-- C9 counterexample: the health body's key list is
[service, status, gpu_memory_used], not [service, status,
resource_usage]; in particular resource_usage is not among its keys. -/
theorem C9_counterexample :
    health_check.1 = 200 ∧
    health_check.2.map Prod.fst ≠ ["service", "status", "resource_usage"] ∧
    "resource_usage" ∉ health_check.2.map Prod.fst := by
  refine ⟨rfl, ?_, ?_⟩ <;> decide

/-- C9 (amended): the health endpoint always returns HTTP 200 and a
body consisting exactly of the keys service, status, gpu_memory_used,
in that order. -/
theorem C9_health_keys :
    health_check.1 = 200 ∧
    health_check.2.map Prod.fst = ["service", "status", "gpu_memory_used"] :=
  ⟨rfl, rfl⟩

/-- C10: a request in which lat is 0 or lon is 0 — including the valid
coordinate pair (0, 0) — is rejected with the 400 Missing-coordinates
response and the engine is never invoked, because the boundary tests
presence with Python truthiness. -/
theorem C10_zero_coordinate_rejected (lat lon : Option ℚ) (r t extra : ℚ)
    (h : lat = some 0 ∨ lon = some 0) :
    predict_hazard lat lon r t extra = (PredictResponse.badRequest, false) := by
  rcases h with rfl | rfl
  · cases lon with
    | none => rfl
    | some lo => simp [predict_hazard]
  · cases lat with
    | none => rfl
    | some la => simp [predict_hazard]

/-- C10 witness: the in-range point (0, 0) is rejected without
invoking the engine. -/
theorem C10_zero_coordinate_rejected_witness :
    (some (0 : ℚ) = some 0 ∨ some (0 : ℚ) = some 0) ∧
    predict_hazard (some 0) (some 0) 0 0 0 = (PredictResponse.badRequest, false) :=
  ⟨Or.inl rfl, C10_zero_coordinate_rejected _ _ 0 0 0 (Or.inl rfl)⟩

end GeoSlide
